import Mathlib

/-!
Shallow embedding of the Mini-Minecraft block/camera module
(`src/assignment_package/src/scene/block.cpp` and
`src/assignment_package/src/scene/camera.h`).

Floats (`glm::vec2`, `glm::vec4` components) are modelled as rationals;
all arithmetic appearing in the source (addition of UV offsets, the
constant 1/16) is exact in that model.
-/

namespace MiniMinecraft

/-- Block type enumeration (block.h's `BlockType`; enumerators as listed in
the spec's data model and used by block.cpp). -/
inductive BlockType
  | EMPTY | GRASS | DIRT | STONE | WATER | SNOW
  | LAVA | BEDROCK | ICE | WOOD | LEAF
  deriving DecidableEq, Fintype, Repr

/-- Face direction tags, in the order used throughout block.cpp. -/
inductive Direction
  | XPOS | XNEG | YPOS | YNEG | ZPOS | ZNEG
  deriving DecidableEq, Fintype, Repr

/-- `glm::vec2` modelled over ℚ. -/
structure Vec2 where
  x : ℚ
  y : ℚ
  deriving DecidableEq, Repr

/-- Componentwise addition, as `glm::vec2 + glm::vec2`. -/
def Vec2.add (a b : Vec2) : Vec2 := ⟨a.x + b.x, a.y + b.y⟩

/-- `glm::vec3` modelled over ℚ. -/
structure Vec3 where
  x : ℚ
  y : ℚ
  z : ℚ
  deriving DecidableEq, Repr

/-- Componentwise subtraction of 3-vectors. -/
def Vec3.sub (a b : Vec3) : Vec3 := ⟨a.x - b.x, a.y - b.y, a.z - b.z⟩

/-- The standard cross product of 3-vectors. -/
def Vec3.cross (a b : Vec3) : Vec3 :=
  ⟨a.y * b.z - a.z * b.y, a.z * b.x - a.x * b.z, a.x * b.y - a.y * b.x⟩

/-- `glm::vec4` modelled over ℚ. -/
structure Vec4 where
  x : ℚ
  y : ℚ
  z : ℚ
  w : ℚ
  deriving DecidableEq, Repr

/-- Drop the homogeneous coordinate. -/
def Vec4.xyz (v : Vec4) : Vec3 := ⟨v.x, v.y, v.z⟩

/-- `VertexData`: a position (vec4) together with a UV coordinate (vec2). -/
structure VertexData where
  pos : Vec4
  uv : Vec2
  deriving DecidableEq, Repr

/-- `BlockFace`: direction tag, normal vector, and the 4 vertices of one
cube face. -/
structure BlockFace where
  dir : Direction
  normal : Vec4
  v1 : VertexData
  v2 : VertexData
  v3 : VertexData
  v4 : VertexData
  deriving DecidableEq, Repr

/-- `float length = 1.f/16.f;` in `Block::createBlockFaces` (exact in
binary floating point and in ℚ). -/
def length : ℚ := 1 / 16

/-- `Block::createBlockFaces(std::array<glm::vec2,6>)` from block.cpp
lines 14-50: builds the array of 6 faces, in the order
XPOS, XNEG, YPOS, YNEG, ZPOS, ZNEG, each with its normal, 4 vertex
positions and 4 UV coordinates exactly as written in the source. -/
def createBlockFaces (uvOffsets : Fin 6 → Vec2) : Fin 6 → BlockFace
  | ⟨0, _⟩ =>
    ⟨.XPOS, ⟨1, 0, 0, 0⟩,
      ⟨⟨1, 0, 1, 1⟩, uvOffsets 0⟩,
      ⟨⟨1, 0, 0, 1⟩, (uvOffsets 0).add ⟨length, 0⟩⟩,
      ⟨⟨1, 1, 0, 1⟩, (uvOffsets 0).add ⟨length, length⟩⟩,
      ⟨⟨1, 1, 1, 1⟩, (uvOffsets 0).add ⟨0, length⟩⟩⟩
  | ⟨1, _⟩ =>
    ⟨.XNEG, ⟨-1, 0, 0, 0⟩,
      ⟨⟨0, 0, 0, 1⟩, uvOffsets 1⟩,
      ⟨⟨0, 0, 1, 1⟩, (uvOffsets 1).add ⟨length, 0⟩⟩,
      ⟨⟨0, 1, 1, 1⟩, (uvOffsets 1).add ⟨length, length⟩⟩,
      ⟨⟨0, 1, 0, 1⟩, (uvOffsets 1).add ⟨0, length⟩⟩⟩
  | ⟨2, _⟩ =>
    ⟨.YPOS, ⟨0, 1, 0, 0⟩,
      ⟨⟨0, 1, 1, 1⟩, uvOffsets 2⟩,
      ⟨⟨1, 1, 1, 1⟩, (uvOffsets 2).add ⟨length, 0⟩⟩,
      ⟨⟨1, 1, 0, 1⟩, (uvOffsets 2).add ⟨length, length⟩⟩,
      ⟨⟨0, 1, 0, 1⟩, (uvOffsets 2).add ⟨0, length⟩⟩⟩
  | ⟨3, _⟩ =>
    ⟨.YNEG, ⟨0, -1, 0, 0⟩,
      ⟨⟨0, 0, 0, 1⟩, uvOffsets 3⟩,
      ⟨⟨1, 0, 0, 1⟩, (uvOffsets 3).add ⟨length, 0⟩⟩,
      ⟨⟨1, 0, 1, 1⟩, (uvOffsets 3).add ⟨length, length⟩⟩,
      ⟨⟨0, 0, 1, 1⟩, (uvOffsets 3).add ⟨0, length⟩⟩⟩
  | ⟨4, _⟩ =>
    ⟨.ZPOS, ⟨0, 0, 1, 0⟩,
      ⟨⟨0, 0, 1, 1⟩, uvOffsets 4⟩,
      ⟨⟨1, 0, 1, 1⟩, (uvOffsets 4).add ⟨length, 0⟩⟩,
      ⟨⟨1, 1, 1, 1⟩, (uvOffsets 4).add ⟨length, length⟩⟩,
      ⟨⟨0, 1, 1, 1⟩, (uvOffsets 4).add ⟨0, length⟩⟩⟩
  | ⟨5, _⟩ =>
    ⟨.ZNEG, ⟨0, 0, -1, 0⟩,
      ⟨⟨1, 0, 0, 1⟩, uvOffsets 5⟩,
      ⟨⟨0, 0, 0, 1⟩, (uvOffsets 5).add ⟨length, 0⟩⟩,
      ⟨⟨0, 1, 0, 1⟩, (uvOffsets 5).add ⟨length, length⟩⟩,
      ⟨⟨1, 1, 0, 1⟩, (uvOffsets 5).add ⟨0, length⟩⟩⟩
  | ⟨n + 6, h⟩ => absurd h (by omega)

/-- `Block::createBlockFaces()` (block.cpp lines 59-64): the default set of
block faces, all UV offsets zero. -/
def createBlockFacesDefault : Fin 6 → BlockFace :=
  createBlockFaces (fun _ => ⟨0, 0⟩)

/-- The mutable static members of `Block`: the `BlockCollection` map and the
three block-type sets. C++ `std::unordered_map`/`std::unordered_set` are
modelled as a partial map and membership lists. -/
structure BlockState where
  blockCollection : BlockType → Option (Fin 6 → BlockFace)
  transparentBlockTypes : List BlockType
  animatableBlockTypes : List BlockType
  liquidBlockTypes : List BlockType

/-- The static initializers at block.cpp lines 220-247:
`transparentBlockTypes = {EMPTY, WATER, ICE}`,
`animatableBlockTypes = {WATER, LAVA}`, `liquidBlockTypes = {WATER, LAVA}`,
and an (effectively empty) `BlockCollection`. -/
def initialState : BlockState where
  blockCollection := fun _ => none
  transparentBlockTypes := [.EMPTY, .WATER, .ICE]
  animatableBlockTypes := [.WATER, .LAVA]
  liquidBlockTypes := [.WATER, .LAVA]

/-- `Block::isOpaque` (block.cpp lines 73-76):
`transparentBlockTypes.find(type) == transparentBlockTypes.end()`. -/
def isOpaque (s : BlockState) (type : BlockType) : Bool :=
  !(s.transparentBlockTypes.contains type)

/-- `Block::isTransparent` (block.cpp lines 86-89):
`transparentBlockTypes.find(type) != transparentBlockTypes.end()`. -/
def isTransparent (s : BlockState) (type : BlockType) : Bool :=
  s.transparentBlockTypes.contains type

/-- `Block::isLiquid` (block.cpp lines 91-94). -/
def isLiquid (s : BlockState) (type : BlockType) : Bool :=
  s.liquidBlockTypes.contains type

/-- `Block::isAnimatable` (block.cpp lines 103-106). -/
def isAnimatable (s : BlockState) (type : BlockType) : Bool :=
  s.animatableBlockTypes.contains type

/-- `Block::getAnimatableFlag` (block.cpp lines 114-121): `vec2(1.f)` when
animatable, else `vec2(-1.f)`. -/
def getAnimatableFlag (s : BlockState) (type : BlockType) : Vec2 :=
  if isAnimatable s type then ⟨1, 1⟩ else ⟨-1, -1⟩

/-- `Block::isEmpty` (block.cpp lines 131-134). -/
def isEmptyBlock (type : BlockType) : Bool :=
  type = BlockType.EMPTY

/-- `Block::insertNewUVCoord` (block.cpp lines 171-173):
`BlockCollection[blockType] = Block::createBlockFaces(uv);`. -/
def insertNewUVCoord (blockType : BlockType) (uv : Fin 6 → Vec2)
    (s : BlockState) : BlockState :=
  { s with
    blockCollection := fun t =>
      if t = blockType then some (createBlockFaces uv)
      else s.blockCollection t }

/-- The direction tag stored at each index of the face array, in the source
order XPOS, XNEG, YPOS, YNEG, ZPOS, ZNEG. -/
def dirOfIndex : Fin 6 → Direction
  | ⟨0, _⟩ => .XPOS
  | ⟨1, _⟩ => .XNEG
  | ⟨2, _⟩ => .YPOS
  | ⟨3, _⟩ => .YNEG
  | ⟨4, _⟩ => .ZPOS
  | ⟨5, _⟩ => .ZNEG
  | ⟨n + 6, h⟩ => absurd h (by omega)

/-- The outward unit axis vector of a face direction, as a 3-vector. -/
def outwardAxis : Direction → Vec3
  | .XPOS => ⟨1, 0, 0⟩
  | .XNEG => ⟨-1, 0, 0⟩
  | .YPOS => ⟨0, 1, 0⟩
  | .YNEG => ⟨0, -1, 0⟩
  | .ZPOS => ⟨0, 0, 1⟩
  | .ZNEG => ⟨0, 0, -1⟩

/-- The outward unit axis vector with homogeneous coordinate 0, i.e. the
normal `Block::createBlockFaces` writes for each direction. -/
def outwardNormal4 : Direction → Vec4
  | .XPOS => ⟨1, 0, 0, 0⟩
  | .XNEG => ⟨-1, 0, 0, 0⟩
  | .YPOS => ⟨0, 1, 0, 0⟩
  | .YNEG => ⟨0, -1, 0, 0⟩
  | .ZPOS => ⟨0, 0, 1, 0⟩
  | .ZNEG => ⟨0, 0, -1, 0⟩

/-- The position coordinate along a direction's axis. -/
def axisCoord : Direction → Vec4 → ℚ
  | .XPOS, v => v.x
  | .XNEG, v => v.x
  | .YPOS, v => v.y
  | .YNEG, v => v.y
  | .ZPOS, v => v.z
  | .ZNEG, v => v.z

/-- The constant value the axis coordinate takes on a face: 1 on the
positive faces, 0 on the negative ones. -/
def axisValue : Direction → ℚ
  | .XPOS => 1
  | .YPOS => 1
  | .ZPOS => 1
  | .XNEG => 0
  | .YNEG => 0
  | .ZNEG => 0

/-- A rational is 0 or 1. -/
def inZeroOne (q : ℚ) : Prop := q = 0 ∨ q = 1

instance (q : ℚ) : Decidable (inZeroOne q) := by
  unfold inZeroOne; infer_instance

/-- A vertex position of a face in direction `d` is on the unit cube and on
the face's plane: all three coordinates in {0,1} and the axis coordinate
equal to the face's constant. -/
def posOnFace (d : Direction) (p : Vec4) : Prop :=
  inZeroOne p.x ∧ inZeroOne p.y ∧ inZeroOne p.z ∧ axisCoord d p = axisValue d

instance (d : Direction) (p : Vec4) : Decidable (posOnFace d p) := by
  unfold posOnFace; infer_instance

/-- The full geometric requirement on one face: all four vertex positions
on the unit cube and on the face's plane, and the winding cross product
(p2-p1) x (p3-p2) equal to the outward axis vector of the direction. -/
def faceGeomOK (d : Direction) (p1 p2 p3 p4 : Vec4) : Prop :=
  posOnFace d p1 ∧ posOnFace d p2 ∧ posOnFace d p3 ∧ posOnFace d p4 ∧
    Vec3.cross (p2.xyz.sub p1.xyz) (p3.xyz.sub p2.xyz) = outwardAxis d

instance (d : Direction) (p1 p2 p3 p4 : Vec4) :
    Decidable (faceGeomOK d p1 p2 p3 p4) := by
  unfold faceGeomOK; infer_instance

/-- Dot product of 3-vectors. -/
def Vec3.dot (a b : Vec3) : ℚ := a.x * b.x + a.y * b.y + a.z * b.z

/-- 4x4 matrices over the rational model of float. -/
def Mat4 := Matrix (Fin 4) (Fin 4) ℚ

/-- Matrix product on `Mat4`. -/
def Mat4.mul (a b : Mat4) : Mat4 := Matrix.mulᵣ a b

/-- Modelled from the spec: `Entity` (entity.h) is not in src/; the spec
describes a camera as "a positioned, oriented entity", so the entity part
of the camera state is a position and an orientation frame (forward, right,
up). The projection fields are the private members declared in camera.h
lines 8-13: `m_fovy`, `m_width`, `m_height`, `m_near_clip`, `m_far_clip`,
`m_aspect`. -/
structure Camera where
  pos : Vec3
  forward : Vec3
  right : Vec3
  up : Vec3
  m_fovy : ℚ
  m_width : ℕ
  m_height : ℕ
  m_near_clip : ℚ
  m_far_clip : ℚ
  m_aspect : ℚ

/-- The view matrix derived from a position and an orientation frame (the
standard look-at arrangement: rows are right, up, -forward with the
translation part from dot products with the position). -/
def viewMatrix (pos forward right up : Vec3) : Mat4 :=
  !![right.x, right.y, right.z, -(Vec3.dot right pos);
     up.x, up.y, up.z, -(Vec3.dot up pos);
     -forward.x, -forward.y, -forward.z, Vec3.dot forward pos;
     0, 0, 0, 1]

/-- The perspective projection matrix from the projection parameters (the
standard OpenGL form, with the tangent of the half field of view supplied
as a rational, since trigonometry is outside the rational model). -/
def projMatrix (tanHalfFovy aspect nearClip farClip : ℚ) : Mat4 :=
  !![1 / (aspect * tanHalfFovy), 0, 0, 0;
     0, 1 / tanHalfFovy, 0, 0;
     0, 0, -(farClip + nearClip) / (farClip - nearClip),
       -(2 * farClip * nearClip) / (farClip - nearClip);
     0, 0, -1, 0]

/-- Modelled from the spec: the body of `Camera::getViewProj` (camera.cpp)
is not in src/, only its `const` declaration (camera.h line 23). The spec
says the camera derives its view/projection matrices from its position,
orientation, and projection parameters (FOV, clip planes, aspect). Modelled
as state passing: the call returns the derived matrix together with the
(unchanged) camera state. `tanHalf` abstracts the tangent function applied
to half the field of view. -/
def getViewProj (tanHalf : ℚ → ℚ) (c : Camera) : Mat4 × Camera :=
  (Mat4.mul
      (projMatrix (tanHalf (c.m_fovy / 2)) c.m_aspect c.m_near_clip c.m_far_clip)
      (viewMatrix c.pos c.forward c.right c.up),
   c)

/-- C1: for every input array of 6 UV offsets, each of the 6 faces returned
by `Block::createBlockFaces` has its 4 vertex positions with all three
coordinates in {0,1}, lying in the common plane where the coordinate along
the face's axis is constantly 1 for XPOS/YPOS/ZPOS and 0 for
XNEG/YNEG/ZNEG, and ordered counter-clockwise seen from outside: the cross
product (v2-v1) x (v3-v2) equals the face's outward axis vector. -/
theorem createBlockFaces_geometry (uv : Fin 6 → Vec2) (i : Fin 6) :
    faceGeomOK (createBlockFaces uv i).dir (createBlockFaces uv i).v1.pos
      (createBlockFaces uv i).v2.pos (createBlockFaces uv i).v3.pos
      (createBlockFaces uv i).v4.pos := by
  fin_cases i <;>
    simp [faceGeomOK, posOnFace, inZeroOne, createBlockFaces, axisCoord,
      axisValue, Vec3.cross, Vec3.sub, Vec4.xyz, outwardAxis]

/-- C2: `Block::insertNewUVCoord(t, uv)` stores under `t` in
`BlockCollection` exactly the 6 faces produced by
`Block::createBlockFaces(uv)`, one face per direction in the order
XPOS, XNEG, YPOS, YNEG, ZPOS, ZNEG. -/
theorem insertNewUVCoord_sets_entry (t : BlockType) (uv : Fin 6 → Vec2)
    (s : BlockState) :
    (insertNewUVCoord t uv s).blockCollection t = some (createBlockFaces uv) ∧
    ∀ i : Fin 6, (createBlockFaces uv i).dir = dirOfIndex i := by
  refine ⟨by simp [insertNewUVCoord], ?_⟩
  intro i
  fin_cases i <;> rfl

/-- C3: for every input array and face index, the four UV coordinates of
face i are uvOffsets[i] + (0,0), + (1/16,0), + (1/16,1/16), + (0,1/16), in
that vertex order. -/
theorem createBlockFaces_uvs (uv : Fin 6 → Vec2) (i : Fin 6) :
    (createBlockFaces uv i).v1.uv = uv i ∧
    (createBlockFaces uv i).v2.uv = (uv i).add ⟨1 / 16, 0⟩ ∧
    (createBlockFaces uv i).v3.uv = (uv i).add ⟨1 / 16, 1 / 16⟩ ∧
    (createBlockFaces uv i).v4.uv = (uv i).add ⟨0, 1 / 16⟩ := by
  fin_cases i <;> exact ⟨rfl, rfl, rfl, rfl⟩

/-- C4: every face returned by `Block::createBlockFaces` carries as its
normal the outward unit axis vector of its direction tag, with homogeneous
coordinate 0. -/
theorem createBlockFaces_normals (uv : Fin 6 → Vec2) (i : Fin 6) :
    (createBlockFaces uv i).normal = outwardNormal4 (createBlockFaces uv i).dir := by
  fin_cases i <;> rfl

/-- C5: on the static initializers, `isTransparent` holds exactly on
{EMPTY, WATER, ICE}, and `isAnimatable` and `isLiquid` hold exactly on
{WATER, LAVA}. -/
theorem initial_classification :
    ∀ t : BlockType,
      (isTransparent initialState t = true ↔
        (t = .EMPTY ∨ t = .WATER ∨ t = .ICE)) ∧
      (isAnimatable initialState t = true ↔ (t = .WATER ∨ t = .LAVA)) ∧
      (isLiquid initialState t = true ↔ (t = .WATER ∨ t = .LAVA)) := by
  decide

/-- C6: `Block::insertNewUVCoord(t, uv)` changes only the
`BlockCollection` entry for `t`: every other entry and the three
block-type sets are unchanged. -/
theorem insertNewUVCoord_frame (t : BlockType) (uv : Fin 6 → Vec2)
    (s : BlockState) (u : BlockType) (h : u ≠ t) :
    (insertNewUVCoord t uv s).blockCollection u = s.blockCollection u ∧
    (insertNewUVCoord t uv s).transparentBlockTypes = s.transparentBlockTypes ∧
    (insertNewUVCoord t uv s).animatableBlockTypes = s.animatableBlockTypes ∧
    (insertNewUVCoord t uv s).liquidBlockTypes = s.liquidBlockTypes := by
  refine ⟨?_, rfl, rfl, rfl⟩
  simp [insertNewUVCoord, h]

/-- Witness for C6 at concrete inputs: inserting GRASS leaves the WATER
entry and the three sets of the initial state unchanged. -/
theorem insertNewUVCoord_frame_witness :
    BlockType.WATER ≠ BlockType.GRASS ∧
    ((insertNewUVCoord .GRASS (fun _ => ⟨0, 0⟩) initialState).blockCollection
        .WATER = initialState.blockCollection .WATER ∧
     (insertNewUVCoord .GRASS (fun _ => ⟨0, 0⟩)
        initialState).transparentBlockTypes =
        initialState.transparentBlockTypes ∧
     (insertNewUVCoord .GRASS (fun _ => ⟨0, 0⟩)
        initialState).animatableBlockTypes =
        initialState.animatableBlockTypes ∧
     (insertNewUVCoord .GRASS (fun _ => ⟨0, 0⟩) initialState).liquidBlockTypes =
        initialState.liquidBlockTypes) :=
  ⟨by decide,
   insertNewUVCoord_frame .GRASS (fun _ => ⟨0, 0⟩) initialState .WATER
     (by decide)⟩

/-- C7: `Camera::getViewProj` returns the camera state unchanged (it is a
const operation) and its matrix is derived purely from the stored position,
orientation, and projection parameters (FOV, near/far clip planes, aspect
ratio). -/
theorem getViewProj_const (tanHalf : ℚ → ℚ) (c : Camera) :
    (getViewProj tanHalf c).2 = c ∧
    (getViewProj tanHalf c).1 =
      Mat4.mul
        (projMatrix (tanHalf (c.m_fovy / 2)) c.m_aspect c.m_near_clip
          c.m_far_clip)
        (viewMatrix c.pos c.forward c.right c.up) :=
  ⟨rfl, rfl⟩

/-- C8: for every state and block type, `isOpaque` is the boolean negation
of `isTransparent`: every block type is exactly one of opaque or
transparent. -/
theorem isOpaque_negates_isTransparent (s : BlockState) (t : BlockType) :
    isOpaque s t = !(isTransparent s t) ∧
    (isOpaque s t = true ↔ ¬ isTransparent s t = true) := by
  refine ⟨rfl, ?_⟩
  simp [isOpaque, isTransparent]

/-- C9: on the static initializers, `isAnimatable` and `isLiquid` agree on
every block type, and both hold exactly on {WATER, LAVA}. -/
theorem isAnimatable_eq_isLiquid :
    ∀ t : BlockType,
      isAnimatable initialState t = isLiquid initialState t ∧
      (isLiquid initialState t = true ↔ (t = .WATER ∨ t = .LAVA)) := by
  decide

/-- C10: `Block::getAnimatableFlag` returns (1,1) exactly when the type is
animatable and (-1,-1) exactly when it is not, and never any other
value. -/
theorem getAnimatableFlag_values (s : BlockState) (t : BlockType) :
    (getAnimatableFlag s t = ⟨1, 1⟩ ↔ isAnimatable s t = true) ∧
    (getAnimatableFlag s t = ⟨-1, -1⟩ ↔ isAnimatable s t = false) ∧
    (getAnimatableFlag s t = ⟨1, 1⟩ ∨ getAnimatableFlag s t = ⟨-1, -1⟩) := by
  by_cases h : isAnimatable s t = true <;>
    simp [getAnimatableFlag, h, Vec2.mk.injEq] <;> norm_num

end MiniMinecraft
